import Mathlib

/-!
Verification development for the watson WebAssembly binary decoder.

The Rust library in src/src/lib.rs is shallowly embedded here: byte buffers
become lists of natural numbers (each element standing for one byte), slice
parsers of type Result<(&[u8], T), &'static str> become functions
Bytes → Except String (Bytes × T) returning the remaining input first, and
the recursive expression grammar is given an explicit fuel parameter so that
every definition is a total computable function.  Machine-integer subtleties
that matter (the usize subtraction in the Custom-section decoder) are made
explicit with arithmetic modulo 2 ^ 64.
-/

set_option maxRecDepth 8000

namespace Watson

/-- A byte buffer: each element is one byte (0 ≤ b < 256 for real inputs). -/
abbrev Bytes := List Nat

/-! Constants from the external webassembly crate.  The crate itself is not
part of this repository, but every value below is fixed by the WebAssembly
Core Specification 1.0 binary grammar, which the specification names as the
input format (sections 4.3, 4.5 and 6.1 of the specification). -/

def MAGIC_NUMBER : Bytes := [0x00, 0x61, 0x73, 0x6D]

def VERSION_1 : Bytes := [0x01, 0x00, 0x00, 0x00]

def I32 : Nat := 0x7F

def I64 : Nat := 0x7E

def F32 : Nat := 0x7D

def F64 : Nat := 0x7C

def FUNC : Nat := 0x60

def ANYFUNC : Nat := 0x70

def MUTABLE : Nat := 0x01

def LIMIT_MIN : Nat := 0x00

def LIMIT_MIN_MAX : Nat := 0x01

def SECTION_CUSTOM : Nat := 0

def SECTION_TYPE : Nat := 1

def SECTION_IMPORT : Nat := 2

def SECTION_FUNCTION : Nat := 3

def SECTION_TABLE : Nat := 4

def SECTION_MEMORY : Nat := 5

def SECTION_GLOBAL : Nat := 6

def SECTION_EXPORT : Nat := 7

def SECTION_START : Nat := 8

def SECTION_ELEMENT : Nat := 9

def SECTION_CODE : Nat := 10

def SECTION_DATA : Nat := 11

def DESC_FUNCTION : Nat := 0x00

def DESC_TABLE : Nat := 0x01

def DESC_MEMORY : Nat := 0x02

def DESC_GLOBAL : Nat := 0x03

/-! Byte combinators, from fn tag, fn take and fn many_n in src/src/lib.rs. -/

/-- fn tag: succeed iff the next bytes equal the expected tag. -/
def tag (t : Bytes) (input : Bytes) : Except String (Bytes × Bytes) :=
  if t.length > input.length then .error "trying to tag too many bytes"
  else if input.take t.length = t then .ok (input.drop t.length, input.take t.length)
  else .error "did not match tag"

/-- fn take: succeed iff at least num bytes remain. -/
def take (num : Nat) (input : Bytes) : Except String (Bytes × Bytes) :=
  if num > input.length then .error "trying to take too many bytes"
  else .ok (input.drop num, input.take num)

/-- take 1, returning the single byte directly (the source always indexes the
returned one-byte slice with [0]). -/
def take1 (input : Bytes) : Except String (Bytes × Nat) :=
  match input with
  | [] => .error "trying to take too many bytes"
  | b :: rest => .ok (rest, b)

/-- fn many_n: apply a sub-parser exactly n times, collecting results in order. -/
def many_n (n : Nat) (f : Bytes → Except String (Bytes × α)) :
    Bytes → Except String (Bytes × List α) := fun input =>
  match n with
  | 0 => .ok (input, [])
  | m + 1 =>
    match f input with
    | .ok (rest, item) =>
      match many_n m f rest with
      | .ok (rest2, items) => .ok (rest2, item :: items)
      | .error e => .error e
    | .error e => .error e

/-! LEB128 and float primitives.  These live in the external webassembly crate
(try_extract_u32 and friends), not under src/, so they are modelled from the
specification. -/

/-- Modelled from the spec: unsigned LEB128 accumulation (spec 4.1).  Each
byte contributes 7 payload bits, low-order first; a high bit set means more
bytes follow.  The remaining argument bounds how many bytes may still be
consumed; shift is the bit position of the next payload. -/
def extract_leb_u (remaining shift : Nat) (input : Bytes) : Except String (Nat × Nat) :=
  match remaining, input with
  | 0, _ => .error "invalid LEB128 encoding"
  | _ + 1, [] => .error "not enough bytes"
  | r + 1, b :: rest =>
    if b < 128 then .ok (b * 2 ^ shift, 1)
    else
      match extract_leb_u r (shift + 7) rest with
      | .ok (v, n) => .ok (b % 128 * 2 ^ shift + v, n + 1)
      | .error e => .error e

/-- Modelled from the spec: try_extract_u32 of the external webassembly crate.
Decode an unsigned LEB128 u32, returning the value and the number of bytes
consumed; fail after five bytes without termination or when the decoded value
overflows 32 bits (spec 4.1). -/
def try_extract_u32 (input : Bytes) : Except String (Nat × Nat) :=
  match extract_leb_u 5 0 input with
  | .ok (v, n) => if v < 2 ^ 32 then .ok (v, n) else .error "u32 out of range"
  | .error e => .error e

/-- Modelled from the spec: signed LEB128 accumulation (spec 4.1).  As the
unsigned form, but the terminating byte sign-extends from bit 6 of its
payload. -/
def extract_leb_s (remaining shift : Nat) (input : Bytes) : Except String (Int × Nat) :=
  match remaining, input with
  | 0, _ => .error "invalid LEB128 encoding"
  | _ + 1, [] => .error "not enough bytes"
  | r + 1, b :: rest =>
    if b < 128 then
      if b / 64 % 2 = 1 then .ok ((b : Int) * 2 ^ shift - 2 ^ (shift + 7), 1)
      else .ok ((b : Int) * 2 ^ shift, 1)
    else
      match extract_leb_s r (shift + 7) rest with
      | .ok (v, n) => .ok ((b % 128 : Nat) * 2 ^ shift + v, n + 1)
      | .error e => .error e

/-- Modelled from the spec: try_extract_i32 of the external webassembly crate,
bounded to five bytes with a 32-bit range check (spec 4.1). -/
def try_extract_i32 (input : Bytes) : Except String (Int × Nat) :=
  match extract_leb_s 5 0 input with
  | .ok (v, n) =>
    if -(2 ^ 31) ≤ v ∧ v < 2 ^ 31 then .ok (v, n) else .error "i32 out of range"
  | .error e => .error e

/-- Modelled from the spec: try_extract_i64 of the external webassembly crate,
bounded to ten bytes with a 64-bit range check (spec 4.1). -/
def try_extract_i64 (input : Bytes) : Except String (Int × Nat) :=
  match extract_leb_s 10 0 input with
  | .ok (v, n) =>
    if -(2 ^ 63) ≤ v ∧ v < 2 ^ 63 then .ok (v, n) else .error "i64 out of range"
  | .error e => .error e

/-- Modelled from the spec: try_extract_f32 reads exactly four little-endian
bytes; all bit patterns are preserved, so the value is represented here by its
raw 32-bit pattern (spec 4.1). -/
def try_extract_f32 (input : Bytes) : Except String (Nat × Nat) :=
  match input with
  | b0 :: b1 :: b2 :: b3 :: _ =>
    .ok (b0 + b1 * 2 ^ 8 + b2 * 2 ^ 16 + b3 * 2 ^ 24, 4)
  | _ => .error "not enough bytes"

/-- Modelled from the spec: try_extract_f64 reads exactly eight little-endian
bytes, preserved as a raw 64-bit pattern (spec 4.1). -/
def try_extract_f64 (input : Bytes) : Except String (Nat × Nat) :=
  match input with
  | b0 :: b1 :: b2 :: b3 :: b4 :: b5 :: b6 :: b7 :: _ =>
    .ok (b0 + b1 * 2 ^ 8 + b2 * 2 ^ 16 + b3 * 2 ^ 24 + b4 * 2 ^ 32 +
      b5 * 2 ^ 40 + b6 * 2 ^ 48 + b7 * 2 ^ 56, 8)
  | _ => .error "not enough bytes"

/-- fn wasm_u32: decode a LEB128 u32 and advance the cursor. -/
def wasm_u32 (input : Bytes) : Except String (Bytes × Nat) :=
  match try_extract_u32 input with
  | .error e => .error e
  | .ok (i, byte_count) =>
    match take byte_count input with
    | .ok (rest, _) => .ok (rest, i)
    | .error e => .error e

/-- fn wasm_i32: decode a signed LEB128 i32 and advance the cursor (the raw
byte slice the source also returns is discarded by every caller). -/
def wasm_i32 (input : Bytes) : Except String (Bytes × Int) :=
  match try_extract_i32 input with
  | .error e => .error e
  | .ok (i, byte_count) =>
    match take byte_count input with
    | .ok (rest, _) => .ok (rest, i)
    | .error e => .error e

/-- fn wasm_i64: decode a signed LEB128 i64 and advance the cursor. -/
def wasm_i64 (input : Bytes) : Except String (Bytes × Int) :=
  match try_extract_i64 input with
  | .error e => .error e
  | .ok (i, byte_count) =>
    match take byte_count input with
    | .ok (rest, _) => .ok (rest, i)
    | .error e => .error e

/-- fn wasm_f32: read a 32-bit float (as its bit pattern) and advance. -/
def wasm_f32 (input : Bytes) : Except String (Bytes × Nat) :=
  match try_extract_f32 input with
  | .error e => .error e
  | .ok (i, byte_count) =>
    match take byte_count input with
    | .ok (rest, _) => .ok (rest, i)
    | .error e => .error e

/-- fn wasm_f64: read a 64-bit float (as its bit pattern) and advance. -/
def wasm_f64 (input : Bytes) : Except String (Bytes × Nat) :=
  match try_extract_f64 input with
  | .error e => .error e
  | .ok (i, byte_count) =>
    match take byte_count input with
    | .ok (rest, _) => .ok (rest, i)
    | .error e => .error e

/-- Modelled from the spec: validity of a UTF-8 byte sequence, standing in for
the standard library function from_utf8 used by the source (spec 8, invariant
8: every name field is valid UTF-8).  Rust strings are exactly UTF-8 validated
byte sequences, so names are carried here as their byte lists. -/
def utf8_valid : Bytes → Bool
  | [] => true
  | b :: rest =>
    if b < 0x80 then utf8_valid rest
    else if b < 0xC2 then false
    else if b < 0xE0 then
      match rest with
      | c1 :: r => 0x80 ≤ c1 && c1 < 0xC0 && utf8_valid r
      | _ => false
    else if b < 0xF0 then
      match rest with
      | c1 :: c2 :: r =>
        (if b = 0xE0 then 0xA0 ≤ c1 && c1 < 0xC0
         else if b = 0xED then 0x80 ≤ c1 && c1 < 0xA0
         else 0x80 ≤ c1 && c1 < 0xC0) &&
        (0x80 ≤ c2 && c2 < 0xC0) && utf8_valid r
      | _ => false
    else if b < 0xF5 then
      match rest with
      | c1 :: c2 :: c3 :: r =>
        (if b = 0xF0 then 0x90 ≤ c1 && c1 < 0xC0
         else if b = 0xF4 then 0x80 ≤ c1 && c1 < 0x90
         else 0x80 ≤ c1 && c1 < 0xC0) &&
        (0x80 ≤ c2 && c2 < 0xC0) && (0x80 ≤ c3 && c3 < 0xC0) && utf8_valid r
      | _ => false
    else false

/-- fn wasm_string: a length-prefixed, UTF-8 validated name, kept as its byte
sequence. -/
def wasm_string (input : Bytes) : Except String (Bytes × Bytes) :=
  match wasm_u32 input with
  | .error e => .error e
  | .ok (input, num_chars) =>
    match take num_chars input with
    | .error e => .error e
    | .ok (input, chars) =>
      if utf8_valid chars then .ok (input, chars)
      else .error "could not parse utf8 string"

/-! Data model, from the type definitions in src/src/lib.rs.  The source keeps
two parallel hierarchies: a borrowing view and an owned form.  Both are
embedded; in the embedding a borrowed str or byte slice and an owned String or
byte vector are both byte lists, which is exactly the content the Rust types
share. -/

inductive ValueType
  | I32
  | I64
  | F32
  | F64
  deriving Repr, DecidableEq

/-- impl TryFrom of u8 for ValueType. -/
def ValueType.try_from (value : Nat) : Except String ValueType :=
  if value = Watson.I32 then .ok ValueType.I32
  else if value = Watson.I64 then .ok ValueType.I64
  else if value = Watson.F32 then .ok ValueType.F32
  else if value = Watson.F64 then .ok ValueType.F64
  else .error "could not convert data type"

/-- fn try_to_value_types: convert a byte vector elementwise. -/
def try_to_value_types : Bytes → Except String (List ValueType)
  | [] => .ok []
  | v :: rest =>
    match ValueType.try_from v with
    | .error e => .error e
    | .ok t =>
      match try_to_value_types rest with
      | .error e => .error e
      | .ok ts => .ok (t :: ts)

structure FunctionType where
  inputs : List ValueType
  outputs : List ValueType
  deriving Repr, DecidableEq

inductive WasmType
  | Function : FunctionType → WasmType
  deriving Repr, DecidableEq

structure TypeSection where
  types : List WasmType
  deriving Repr, DecidableEq

structure FunctionSection where
  function_types : List Nat
  deriving Repr, DecidableEq

/-- enum Instruction: the full MVP opcode algebra.  u32 immediates are Nat,
signed constants are Int, and float constants carry their raw bit pattern. -/
inductive Instruction
  | Unreachable
  | Nop
  | Block (block_type : Nat) (body : List Instruction)
  | Loop (block_type : Nat) (body : List Instruction)
  | If (block_type : Nat) (then_body : List Instruction)
      (else_body : Option (List Instruction))
  | Br (idx : Nat)
  | BrIf (idx : Nat)
  | BrTable (labels : List Nat) (default_label : Nat)
  | Return
  | Call (idx : Nat)
  | CallIndirect (idx : Nat)
  | Drop
  | Select
  | LocalGet (idx : Nat)
  | LocalSet (idx : Nat)
  | LocalTee (idx : Nat)
  | GlobalGet (idx : Nat)
  | GlobalSet (idx : Nat)
  | I32Load (a o : Nat)
  | I64Load (a o : Nat)
  | F32Load (a o : Nat)
  | F64Load (a o : Nat)
  | I32Load8S (a o : Nat)
  | I32Load8U (a o : Nat)
  | I32Load16S (a o : Nat)
  | I32Load16U (a o : Nat)
  | I64Load8S (a o : Nat)
  | I64Load8U (a o : Nat)
  | I64Load16S (a o : Nat)
  | I64Load16U (a o : Nat)
  | I64Load32S (a o : Nat)
  | I64Load32U (a o : Nat)
  | I32Store (a o : Nat)
  | I64Store (a o : Nat)
  | F32Store (a o : Nat)
  | F64Store (a o : Nat)
  | I32Store8 (a o : Nat)
  | I32Store16 (a o : Nat)
  | I64Store8 (a o : Nat)
  | I64Store16 (a o : Nat)
  | I64Store32 (a o : Nat)
  | MemorySize
  | MemoryGrow
  | I32Const (c : Int)
  | I64Const (c : Int)
  | F32Const (bits : Nat)
  | F64Const (bits : Nat)
  | I32Eqz
  | I32Eq
  | I32Ne
  | I32LtS
  | I32LtU
  | I32GtS
  | I32GtU
  | I32LeS
  | I32LeU
  | I32GeS
  | I32GeU
  | I64Eqz
  | I64Eq
  | I64Ne
  | I64LtS
  | I64LtU
  | I64GtS
  | I64GtU
  | I64LeS
  | I64LeU
  | I64GeS
  | I64GeU
  | F32Eq
  | F32Ne
  | F32Lt
  | F32Gt
  | F32Le
  | F32Ge
  | F64Eq
  | F64Ne
  | F64Lt
  | F64Gt
  | F64Le
  | F64Ge
  | I32Clz
  | I32Ctz
  | I32Popcnt
  | I32Add
  | I32Sub
  | I32Mul
  | I32DivS
  | I32DivU
  | I32RemS
  | I32RemU
  | I32And
  | I32Or
  | I32Xor
  | I32Shl
  | I32ShrS
  | I32ShrU
  | I32Rotl
  | I32Rotr
  | I64Clz
  | I64Ctz
  | I64Popcnt
  | I64Add
  | I64Sub
  | I64Mul
  | I64DivS
  | I64DivU
  | I64RemS
  | I64RemU
  | I64And
  | I64Or
  | I64Xor
  | I64Shl
  | I64ShrS
  | I64ShrU
  | I64Rotl
  | I64Rotr
  | F32AbS
  | F32Neg
  | F32Ceil
  | F32Floor
  | F32Trunc
  | F32Nearest
  | F32Sqrt
  | F32Add
  | F32Sub
  | F32Mul
  | F32Div
  | F32Min
  | F32Max
  | F32Copysign
  | F64AbS
  | F64Neg
  | F64Ceil
  | F64Floor
  | F64Trunc
  | F64Nearest
  | F64Sqrt
  | F64Add
  | F64Sub
  | F64Mul
  | F64Div
  | F64Min
  | F64Max
  | F64Copysign
  | I32wrapF64
  | I32TruncSF32
  | I32TruncUF32
  | I32TruncSF64
  | I32TruncUF64
  | I64ExtendSI32
  | I64ExtendUI32
  | I64TruncSF32
  | I64TruncUF32
  | I64TruncSF64
  | I64TruncUF64
  | F32ConvertSI32
  | F32ConvertUI32
  | F32ConvertSI64
  | F32ConvertUI64
  | F32DemoteF64
  | F64ConvertSI32
  | F64ConvertUI32
  | F64ConvertSI64
  | F64ConvertUI64
  | F64PromoteF32
  | I32ReinterpretF32
  | I64ReinterpretF64
  | F32ReinterpretI32
  | F64ReinterpretI64
  deriving Repr

structure CodeBlock where
  locals : List (Nat × ValueType)
  code_expression : List Instruction
  deriving Repr

structure CodeSection where
  code_blocks : List CodeBlock
  deriving Repr

structure ExportView where
  name : Bytes
  index : Nat
  deriving Repr, DecidableEq

inductive WasmExportView
  | Function : ExportView → WasmExportView
  | Table : ExportView → WasmExportView
  | Memory : ExportView → WasmExportView
  | Global : ExportView → WasmExportView
  deriving Repr, DecidableEq

structure ExportSectionView where
  exports : List WasmExportView
  deriving Repr, DecidableEq

structure Export where
  name : Bytes
  index : Nat
  deriving Repr, DecidableEq

inductive WasmExport
  | Function : Export → WasmExport
  | Table : Export → WasmExport
  | Memory : Export → WasmExport
  | Global : Export → WasmExport
  deriving Repr, DecidableEq

structure ExportSection where
  exports : List WasmExport
  deriving Repr, DecidableEq

structure FunctionImportView where
  module_name : Bytes
  name : Bytes
  type_index : Nat
  deriving Repr, DecidableEq

structure GlobalImportView where
  module_name : Bytes
  name : Bytes
  value_type : ValueType
  is_mutable : Bool
  deriving Repr, DecidableEq

structure MemoryImportView where
  module_name : Bytes
  name : Bytes
  min_pages : Nat
  max_pages : Option Nat
  deriving Repr, DecidableEq

structure TableImportView where
  module_name : Bytes
  name : Bytes
  element_type : Nat
  min : Nat
  max : Option Nat
  deriving Repr, DecidableEq

inductive WasmImportView
  | Function : FunctionImportView → WasmImportView
  | Global : GlobalImportView → WasmImportView
  | Memory : MemoryImportView → WasmImportView
  | Table : TableImportView → WasmImportView
  deriving Repr, DecidableEq

structure ImportSectionView where
  imports : List WasmImportView
  deriving Repr, DecidableEq

structure FunctionImport where
  module_name : Bytes
  name : Bytes
  type_index : Nat
  deriving Repr, DecidableEq

structure GlobalImport where
  module_name : Bytes
  name : Bytes
  value_type : ValueType
  is_mutable : Bool
  deriving Repr, DecidableEq

structure MemoryImport where
  module_name : Bytes
  name : Bytes
  min_pages : Nat
  max_pages : Option Nat
  deriving Repr, DecidableEq

structure TableImport where
  module_name : Bytes
  name : Bytes
  element_type : Nat
  min : Nat
  max : Option Nat
  deriving Repr, DecidableEq

inductive WasmImport
  | Function : FunctionImport → WasmImport
  | Global : GlobalImport → WasmImport
  | Memory : MemoryImport → WasmImport
  | Table : TableImport → WasmImport
  deriving Repr, DecidableEq

structure ImportSection where
  imports : List WasmImport
  deriving Repr, DecidableEq

structure WasmMemory where
  min_pages : Nat
  max_pages : Option Nat
  deriving Repr, DecidableEq

structure MemorySection where
  memories : List WasmMemory
  deriving Repr, DecidableEq

structure StartSection where
  start_function : Nat
  deriving Repr, DecidableEq

structure Global where
  value_type : ValueType
  is_mutable : Bool
  value_expression : List Instruction
  deriving Repr

structure GlobalSection where
  globals : List Global
  deriving Repr

structure Table where
  element_type : Nat
  min : Nat
  max : Option Nat
  deriving Repr, DecidableEq

structure TableSection where
  tables : List Table
  deriving Repr, DecidableEq

structure DataBlockView where
  memory : Nat
  offset_expression : List Instruction
  data : Bytes
  deriving Repr

structure DataSectionView where
  data_blocks : List DataBlockView
  deriving Repr

structure DataBlock where
  memory : Nat
  offset_expression : List Instruction
  data : Bytes
  deriving Repr

structure DataSection where
  data_blocks : List DataBlock
  deriving Repr

structure CustomSectionView where
  name : Bytes
  data : Bytes
  deriving Repr, DecidableEq

structure CustomSection where
  name : Bytes
  data : Bytes
  deriving Repr, DecidableEq

structure WasmElement where
  table : Nat
  value_expression : List Instruction
  functions : List Nat
  deriving Repr

structure ElementSection where
  elements : List WasmElement
  deriving Repr

inductive SectionView
  | Type : TypeSection → SectionView
  | Function : FunctionSection → SectionView
  | Code : CodeSection → SectionView
  | Export : ExportSectionView → SectionView
  | Import : ImportSectionView → SectionView
  | Memory : MemorySection → SectionView
  | Start : StartSection → SectionView
  | Global : GlobalSection → SectionView
  | Table : TableSection → SectionView
  | Data : DataSectionView → SectionView
  | Custom : CustomSectionView → SectionView
  | Element : ElementSection → SectionView
  deriving Repr

inductive Section
  | Type : TypeSection → Section
  | Function : FunctionSection → Section
  | Code : CodeSection → Section
  | Export : ExportSection → Section
  | Import : ImportSection → Section
  | Memory : MemorySection → Section
  | Start : StartSection → Section
  | Global : GlobalSection → Section
  | Table : TableSection → Section
  | Data : DataSection → Section
  | Custom : CustomSection → Section
  | Element : ElementSection → Section
  deriving Repr

structure ProgramView where
  sections : List SectionView
  deriving Repr

structure Program where
  sections : List Section
  deriving Repr

/-! View to owned conversion, from the to_owned impls in src/src/lib.rs. -/

/-- impl ExportSectionView to_owned: copy each export name, keep the tag. -/
def ExportSectionView.to_owned (s : ExportSectionView) : ExportSection :=
  ⟨s.exports.map fun x =>
    match x with
    | WasmExportView.Function x => WasmExport.Function ⟨x.name, x.index⟩
    | WasmExportView.Global x => WasmExport.Global ⟨x.name, x.index⟩
    | WasmExportView.Memory x => WasmExport.Memory ⟨x.name, x.index⟩
    | WasmExportView.Table x => WasmExport.Table ⟨x.name, x.index⟩⟩

/-- impl ImportSectionView to_owned: copy names, clone payload fields. -/
def ImportSectionView.to_owned (s : ImportSectionView) : ImportSection :=
  ⟨s.imports.map fun x =>
    match x with
    | WasmImportView.Function x =>
      WasmImport.Function ⟨x.module_name, x.name, x.type_index⟩
    | WasmImportView.Global x =>
      WasmImport.Global ⟨x.module_name, x.name, x.value_type, x.is_mutable⟩
    | WasmImportView.Memory x =>
      WasmImport.Memory ⟨x.module_name, x.name, x.min_pages, x.max_pages⟩
    | WasmImportView.Table x =>
      WasmImport.Table ⟨x.module_name, x.name, x.element_type, x.min, x.max⟩⟩

/-- impl DataSectionView to_owned: copy the payload bytes of each block. -/
def DataSectionView.to_owned (s : DataSectionView) : DataSection :=
  ⟨s.data_blocks.map fun x => ⟨x.memory, x.offset_expression, x.data⟩⟩

/-- impl CustomSectionView to_owned: copy the name and the raw bytes. -/
def CustomSectionView.to_owned (s : CustomSectionView) : CustomSection :=
  ⟨s.name, s.data⟩

/-- impl SectionView to_owned: clone shared sections, convert borrowing ones. -/
def SectionView.to_owned : SectionView → Section
  | SectionView.Type s => Section.Type s
  | SectionView.Function s => Section.Function s
  | SectionView.Code s => Section.Code s
  | SectionView.Export s => Section.Export s.to_owned
  | SectionView.Import s => Section.Import s.to_owned
  | SectionView.Memory s => Section.Memory s
  | SectionView.Start s => Section.Start s
  | SectionView.Global s => Section.Global s
  | SectionView.Table s => Section.Table s
  | SectionView.Data s => Section.Data s.to_owned
  | SectionView.Custom s => Section.Custom s.to_owned
  | SectionView.Element s => Section.Element s

/-- impl ProgramView to_owned. -/
def ProgramView.to_owned (p : ProgramView) : Program :=
  ⟨p.sections.map SectionView.to_owned⟩

/-! Opcode byte constants.  Values are fixed by the WebAssembly 1.0 binary
format (spec 4.3); names follow the external webassembly crate as used by the
source. -/

def UNREACHABLE : Nat := 0x00
def NOP : Nat := 0x01
def BLOCK : Nat := 0x02
def LOOP : Nat := 0x03
def IF : Nat := 0x04
def ELSE : Nat := 0x05
def END : Nat := 0x0B
def BR : Nat := 0x0C
def BR_IF : Nat := 0x0D
def BR_TABLE : Nat := 0x0E
def RETURN : Nat := 0x0F
def CALL : Nat := 0x10
def CALL_INDIRECT : Nat := 0x11
def DROP : Nat := 0x1A
def SELECT : Nat := 0x1B
def LOCAL_GET : Nat := 0x20
def LOCAL_SET : Nat := 0x21
def LOCAL_TEE : Nat := 0x22
def GLOBAL_GET : Nat := 0x23
def GLOBAL_SET : Nat := 0x24
def I32_LOAD : Nat := 0x28
def I64_LOAD : Nat := 0x29
def F32_LOAD : Nat := 0x2A
def F64_LOAD : Nat := 0x2B
def I32_LOAD8_S : Nat := 0x2C
def I32_LOAD8_U : Nat := 0x2D
def I32_LOAD16_S : Nat := 0x2E
def I32_LOAD16_U : Nat := 0x2F
def I64_LOAD8_S : Nat := 0x30
def I64_LOAD8_U : Nat := 0x31
def I64_LOAD16_S : Nat := 0x32
def I64_LOAD16_U : Nat := 0x33
def I64_LOAD32_S : Nat := 0x34
def I64_LOAD32_U : Nat := 0x35
def I32_STORE : Nat := 0x36
def I64_STORE : Nat := 0x37
def F32_STORE : Nat := 0x38
def F64_STORE : Nat := 0x39
def I32_STORE8 : Nat := 0x3A
def I32_STORE16 : Nat := 0x3B
def I64_STORE8 : Nat := 0x3C
def I64_STORE16 : Nat := 0x3D
def I64_STORE32 : Nat := 0x3E
def MEMORY_SIZE : Nat := 0x3F
def MEMORY_GROW : Nat := 0x40
def I32_CONST : Nat := 0x41
def I64_CONST : Nat := 0x42
def F32_CONST : Nat := 0x43
def F64_CONST : Nat := 0x44
def I32_EQZ : Nat := 0x45
def I32_EQ : Nat := 0x46
def I32_NE : Nat := 0x47
def I32_LT_S : Nat := 0x48
def I32_LT_U : Nat := 0x49
def I32_GT_S : Nat := 0x4A
def I32_GT_U : Nat := 0x4B
def I32_LE_S : Nat := 0x4C
def I32_LE_U : Nat := 0x4D
def I32_GE_S : Nat := 0x4E
def I32_GE_U : Nat := 0x4F
def I64_EQZ : Nat := 0x50
def I64_EQ : Nat := 0x51
def I64_NE : Nat := 0x52
def I64_LT_S : Nat := 0x53
def I64_LT_U : Nat := 0x54
def I64_GT_S : Nat := 0x55
def I64_GT_U : Nat := 0x56
def I64_LE_S : Nat := 0x57
def I64_LE_U : Nat := 0x58
def I64_GE_S : Nat := 0x59
def I64_GE_U : Nat := 0x5A
def F32_EQ : Nat := 0x5B
def F32_NE : Nat := 0x5C
def F32_LT : Nat := 0x5D
def F32_GT : Nat := 0x5E
def F32_LE : Nat := 0x5F
def F32_GE : Nat := 0x60
def F64_EQ : Nat := 0x61
def F64_NE : Nat := 0x62
def F64_LT : Nat := 0x63
def F64_GT : Nat := 0x64
def F64_LE : Nat := 0x65
def F64_GE : Nat := 0x66
def I32_CLZ : Nat := 0x67
def I32_CTZ : Nat := 0x68
def I32_POPCNT : Nat := 0x69
def I32_ADD : Nat := 0x6A
def I32_SUB : Nat := 0x6B
def I32_MUL : Nat := 0x6C
def I32_DIV_S : Nat := 0x6D
def I32_DIV_U : Nat := 0x6E
def I32_REM_S : Nat := 0x6F
def I32_REM_U : Nat := 0x70
def I32_AND : Nat := 0x71
def I32_OR : Nat := 0x72
def I32_XOR : Nat := 0x73
def I32_SHL : Nat := 0x74
def I32_SHR_S : Nat := 0x75
def I32_SHR_U : Nat := 0x76
def I32_ROTL : Nat := 0x77
def I32_ROTR : Nat := 0x78
def I64_CLZ : Nat := 0x79
def I64_CTZ : Nat := 0x7A
def I64_POPCNT : Nat := 0x7B
def I64_ADD : Nat := 0x7C
def I64_SUB : Nat := 0x7D
def I64_MUL : Nat := 0x7E
def I64_DIV_S : Nat := 0x7F
def I64_DIV_U : Nat := 0x80
def I64_REM_S : Nat := 0x81
def I64_REM_U : Nat := 0x82
def I64_AND : Nat := 0x83
def I64_OR : Nat := 0x84
def I64_XOR : Nat := 0x85
def I64_SHL : Nat := 0x86
def I64_SHR_S : Nat := 0x87
def I64_SHR_U : Nat := 0x88
def I64_ROTL : Nat := 0x89
def I64_ROTR : Nat := 0x8A
def F32_ABS : Nat := 0x8B
def F32_NEG : Nat := 0x8C
def F32_CEIL : Nat := 0x8D
def F32_FLOOR : Nat := 0x8E
def F32_TRUNC : Nat := 0x8F
def F32_NEAREST : Nat := 0x90
def F32_SQRT : Nat := 0x91
def F32_ADD : Nat := 0x92
def F32_SUB : Nat := 0x93
def F32_MUL : Nat := 0x94
def F32_DIV : Nat := 0x95
def F32_MIN : Nat := 0x96
def F32_MAX : Nat := 0x97
def F32_COPYSIGN : Nat := 0x98
def F64_ABS : Nat := 0x99
def F64_NEG : Nat := 0x9A
def F64_CEIL : Nat := 0x9B
def F64_FLOOR : Nat := 0x9C
def F64_TRUNC : Nat := 0x9D
def F64_NEAREST : Nat := 0x9E
def F64_SQRT : Nat := 0x9F
def F64_ADD : Nat := 0xA0
def F64_SUB : Nat := 0xA1
def F64_MUL : Nat := 0xA2
def F64_DIV : Nat := 0xA3
def F64_MIN : Nat := 0xA4
def F64_MAX : Nat := 0xA5
def F64_COPYSIGN : Nat := 0xA6
def I32_WRAP_F64 : Nat := 0xA7
def I32_TRUNC_S_F32 : Nat := 0xA8
def I32_TRUNC_U_F32 : Nat := 0xA9
def I32_TRUNC_S_F64 : Nat := 0xAA
def I32_TRUNC_U_F64 : Nat := 0xAB
def I64_EXTEND_S_I32 : Nat := 0xAC
def I64_EXTEND_U_I32 : Nat := 0xAD
def I64_TRUNC_S_F32 : Nat := 0xAE
def I64_TRUNC_U_F32 : Nat := 0xAF
def I64_TRUNC_S_F64 : Nat := 0xB0
def I64_TRUNC_U_F64 : Nat := 0xB1
def F32_CONVERT_S_I32 : Nat := 0xB2
def F32_CONVERT_U_I32 : Nat := 0xB3
def F32_CONVERT_S_I64 : Nat := 0xB4
def F32_CONVERT_U_I64 : Nat := 0xB5
def F32_DEMOTE_F64 : Nat := 0xB6
def F64_CONVERT_S_I32 : Nat := 0xB7
def F64_CONVERT_U_I32 : Nat := 0xB8
def F64_CONVERT_S_I64 : Nat := 0xB9
def F64_CONVERT_U_I64 : Nat := 0xBA
def F64_PROMOTE_F32 : Nat := 0xBB
def I32_REINTERPRET_F32 : Nat := 0xBC
def I64_REINTERPRET_F64 : Nat := 0xBD
def F32_REINTERPRET_I32 : Nat := 0xBE
def F64_REINTERPRET_I64 : Nat := 0xBF

/-- fn wasm_global_type: a value-type byte then a mutability byte. -/
def wasm_global_type (input : Bytes) : Except String (Bytes × ValueType × Bool) :=
  match take1 input with
  | .error e => .error e
  | .ok (input, global_value_type) =>
    match take1 input with
    | .error e => .error e
    | .ok (input, global_type) =>
      match ValueType.try_from global_value_type with
      | .error e => .error e
      | .ok vt => .ok (input, vt, global_type = MUTABLE)

/-- fn wasm_limit: a flag byte, then min and optionally max as LEB128 u32. -/
def wasm_limit (input : Bytes) : Except String (Bytes × Nat × Option Nat) :=
  match take1 input with
  | .error e => .error e
  | .ok (input, mem_type) =>
    if mem_type = LIMIT_MIN_MAX then
      match wasm_u32 input with
      | .error e => .error e
      | .ok (input, min) =>
        match wasm_u32 input with
        | .error e => .error e
        | .ok (input, max) => .ok (input, min, some max)
    else if mem_type = LIMIT_MIN then
      match wasm_u32 input with
      | .error e => .error e
      | .ok (input, min) => .ok (input, min, none)
    else .error "unhandled memory type"

/-- Shape of the branches of fn wasm_instruction that read one u32 immediate. -/
def instr_u32 (k : Nat → Instruction) (input : Bytes) :
    Except String (Bytes × Instruction) :=
  match wasm_u32 input with
  | .error e => .error e
  | .ok (input, idx) => .ok (input, k idx)

/-- Shape of the branches of fn wasm_instruction that read an alignment u32
then an offset u32 (the memory loads and stores). -/
def instr_memarg (k : Nat → Nat → Instruction) (input : Bytes) :
    Except String (Bytes × Instruction) :=
  match wasm_u32 input with
  | .error e => .error e
  | .ok (input, align) =>
    match wasm_u32 input with
    | .error e => .error e
    | .ok (input, offset) => .ok (input, k align offset)

mutual

/-- fn wasm_instruction: dispatch one opcode byte (already consumed; op) to an
instruction variant, reading its operands from input.  The fuel argument makes
the recursion through nested expressions structurally terminating; the source
recursion consumes at least one input byte per step, so any fuel of at least
twice the input length behaves identically to the source. -/
def wasm_instruction : Nat → Nat → Bytes → Except String (Bytes × Instruction)
  | 0, _, _ => .error "out of fuel"
  | fuel + 1, op, input =>
    if op = UNREACHABLE then .ok (input, .Unreachable)
    else if op = NOP then .ok (input, .Nop)
    else if op = RETURN then .ok (input, .Return)
    else if op = BLOCK then
      match take1 input with
      | .error e => .error e
      | .ok (input, block_type) =>
        match wasm_expression fuel input with
        | .error e => .error e
        | .ok (input, block_instructions) =>
          .ok (input, .Block block_type block_instructions)
    else if op = LOOP then
      match take1 input with
      | .error e => .error e
      | .ok (input, block_type) =>
        match wasm_expression fuel input with
        | .error e => .error e
        | .ok (input, loop_instructions) =>
          .ok (input, .Loop block_type loop_instructions)
    else if op = IF then
      match take1 input with
      | .error e => .error e
      | .ok (input, block_type) =>
        match wasm_if_else fuel input with
        | .error e => .error e
        | .ok (input, if_instructions, else_instructions) =>
          .ok (input, .If block_type if_instructions else_instructions)
    else if op = BR then instr_u32 .Br input
    else if op = BR_IF then instr_u32 .BrIf input
    else if op = BR_TABLE then
      match wasm_u32 input with
      | .error e => .error e
      | .ok (input, num_labels) =>
        match many_n num_labels wasm_u32 input with
        | .error e => .error e
        | .ok (input, labels) =>
          match wasm_u32 input with
          | .error e => .error e
          | .ok (input, idx) => .ok (input, .BrTable labels idx)
    else if op = CALL then instr_u32 .Call input
    else if op = CALL_INDIRECT then
      -- The source reads the type index and a reserved u32, then builds
      -- Instruction::Call (not CallIndirect) from the type index.
      match wasm_u32 input with
      | .error e => .error e
      | .ok (input, idx) =>
        match wasm_u32 input with
        | .error e => .error e
        | .ok (input, _) => .ok (input, .Call idx)
    else if op = DROP then .ok (input, .Drop)
    else if op = SELECT then .ok (input, .Select)
    else if op = I32_CONST then
      match wasm_i32 input with
      | .error e => .error e
      | .ok (input, c) => .ok (input, .I32Const c)
    else if op = I64_CONST then
      match wasm_i64 input with
      | .error e => .error e
      | .ok (input, c) => .ok (input, .I64Const c)
    else if op = F32_CONST then
      match wasm_f32 input with
      | .error e => .error e
      | .ok (input, c) => .ok (input, .F32Const c)
    else if op = F64_CONST then
      match wasm_f64 input with
      | .error e => .error e
      | .ok (input, c) => .ok (input, .F64Const c)
    else if op = LOCAL_GET then instr_u32 .LocalGet input
    else if op = LOCAL_SET then instr_u32 .LocalSet input
    else if op = LOCAL_TEE then instr_u32 .LocalTee input
    else if op = GLOBAL_GET then instr_u32 .GlobalGet input
    else if op = GLOBAL_SET then instr_u32 .GlobalSet input
    else if op = I32_LOAD then instr_memarg .I32Load input
    else if op = I64_LOAD then instr_memarg .I64Load input
    else if op = F32_LOAD then instr_memarg .F32Load input
    else if op = F64_LOAD then instr_memarg .F64Load input
    else if op = I32_LOAD8_S then instr_memarg .I32Load8S input
    else if op = I32_LOAD8_U then instr_memarg .I32Load8U input
    else if op = I32_LOAD16_S then instr_memarg .I32Load16S input
    else if op = I32_LOAD16_U then instr_memarg .I32Load16U input
    else if op = I64_LOAD8_S then instr_memarg .I64Load8S input
    else if op = I64_LOAD8_U then instr_memarg .I64Load8U input
    else if op = I64_LOAD16_S then instr_memarg .I64Load16S input
    else if op = I64_LOAD16_U then instr_memarg .I64Load16U input
    else if op = I64_LOAD32_S then instr_memarg .I64Load32S input
    else if op = I64_LOAD32_U then instr_memarg .I64Load32U input
    else if op = I32_STORE then instr_memarg .I32Store input
    else if op = I64_STORE then instr_memarg .I64Store input
    else if op = F32_STORE then instr_memarg .F32Store input
    else if op = F64_STORE then instr_memarg .F64Store input
    else if op = I32_STORE8 then instr_memarg .I32Store8 input
    else if op = I32_STORE16 then instr_memarg .I32Store16 input
    else if op = I64_STORE8 then instr_memarg .I64Store8 input
    else if op = I64_STORE16 then instr_memarg .I64Store16 input
    else if op = I64_STORE32 then instr_memarg .I64Store32 input
    else if op = MEMORY_GROW then
      match wasm_u32 input with
      | .error e => .error e
      | .ok (input, _) => .ok (input, .MemoryGrow)
    else if op = MEMORY_SIZE then
      match wasm_u32 input with
      | .error e => .error e
      | .ok (input, _) => .ok (input, .MemorySize)
    else if op = I32_EQZ then .ok (input, .I32Eqz)
    else if op = I32_EQ then .ok (input, .I32Eq)
    else if op = I32_NE then .ok (input, .I32Ne)
    else if op = I32_LT_S then .ok (input, .I32LtS)
    else if op = I32_LT_U then .ok (input, .I32LtU)
    else if op = I32_GT_S then .ok (input, .I32GtS)
    else if op = I32_GT_U then .ok (input, .I32GtU)
    else if op = I32_LE_S then .ok (input, .I32LeS)
    else if op = I32_LE_U then .ok (input, .I32LeU)
    else if op = I32_GE_S then .ok (input, .I32GeS)
    else if op = I32_GE_U then .ok (input, .I32GeU)
    else if op = I64_EQZ then .ok (input, .I64Eqz)
    else if op = I64_EQ then .ok (input, .I64Eq)
    else if op = I64_NE then .ok (input, .I64Ne)
    else if op = I64_LT_S then .ok (input, .I64LtS)
    else if op = I64_LT_U then .ok (input, .I64LtU)
    else if op = I64_GT_S then .ok (input, .I64GtS)
    else if op = I64_GT_U then .ok (input, .I64GtU)
    else if op = I64_LE_S then .ok (input, .I64LeS)
    else if op = I64_LE_U then .ok (input, .I64LeU)
    else if op = I64_GE_S then .ok (input, .I64GeS)
    else if op = I64_GE_U then .ok (input, .I64GeU)
    else if op = F32_EQ then .ok (input, .F32Eq)
    else if op = F32_NE then .ok (input, .F32Ne)
    else if op = F32_LT then .ok (input, .F32Lt)
    else if op = F32_GT then .ok (input, .F32Gt)
    else if op = F32_LE then .ok (input, .F32Le)
    else if op = F32_GE then .ok (input, .F32Ge)
    else if op = F64_EQ then .ok (input, .F64Eq)
    else if op = F64_NE then .ok (input, .F64Ne)
    else if op = F64_LT then .ok (input, .F64Lt)
    else if op = F64_GT then .ok (input, .F64Gt)
    else if op = F64_LE then .ok (input, .F64Le)
    else if op = F64_GE then .ok (input, .F64Ge)
    else if op = I32_CLZ then .ok (input, .I32Clz)
    else if op = I32_CTZ then .ok (input, .I32Ctz)
    else if op = I32_POPCNT then .ok (input, .I32Popcnt)
    else if op = I32_ADD then .ok (input, .I32Add)
    else if op = I32_SUB then .ok (input, .I32Sub)
    else if op = I32_MUL then .ok (input, .I32Mul)
    else if op = I32_DIV_S then .ok (input, .I32DivS)
    else if op = I32_DIV_U then .ok (input, .I32DivU)
    else if op = I32_REM_S then .ok (input, .I32RemS)
    else if op = I32_REM_U then .ok (input, .I32RemU)
    else if op = I32_AND then .ok (input, .I32And)
    else if op = I32_OR then .ok (input, .I32Or)
    else if op = I32_XOR then .ok (input, .I32Xor)
    else if op = I32_SHL then .ok (input, .I32Shl)
    else if op = I32_SHR_S then .ok (input, .I32ShrS)
    else if op = I32_SHR_U then .ok (input, .I32ShrU)
    else if op = I32_ROTL then .ok (input, .I32Rotl)
    else if op = I32_ROTR then .ok (input, .I32Rotr)
    else if op = I64_CLZ then .ok (input, .I64Clz)
    else if op = I64_CTZ then .ok (input, .I64Ctz)
    else if op = I64_POPCNT then .ok (input, .I64Popcnt)
    else if op = I64_ADD then .ok (input, .I64Add)
    else if op = I64_SUB then .ok (input, .I64Sub)
    else if op = I64_MUL then .ok (input, .I64Mul)
    else if op = I64_DIV_S then .ok (input, .I64DivS)
    else if op = I64_DIV_U then .ok (input, .I64DivU)
    else if op = I64_REM_S then .ok (input, .I64RemS)
    else if op = I64_REM_U then .ok (input, .I64RemU)
    else if op = I64_AND then .ok (input, .I64And)
    else if op = I64_OR then .ok (input, .I64Or)
    else if op = I64_XOR then .ok (input, .I64Xor)
    else if op = I64_SHL then .ok (input, .I64Shl)
    else if op = I64_SHR_S then .ok (input, .I64ShrS)
    else if op = I64_SHR_U then .ok (input, .I64ShrU)
    else if op = I64_ROTL then .ok (input, .I64Rotl)
    else if op = I64_ROTR then .ok (input, .I64Rotr)
    else if op = F32_ABS then .ok (input, .F32AbS)
    else if op = F32_NEG then .ok (input, .F32Neg)
    else if op = F32_CEIL then .ok (input, .F32Ceil)
    else if op = F32_FLOOR then .ok (input, .F32Floor)
    else if op = F32_TRUNC then .ok (input, .F32Trunc)
    else if op = F32_NEAREST then .ok (input, .F32Nearest)
    else if op = F32_SQRT then .ok (input, .F32Sqrt)
    else if op = F32_ADD then .ok (input, .F32Add)
    else if op = F32_SUB then .ok (input, .F32Sub)
    else if op = F32_MUL then .ok (input, .F32Mul)
    else if op = F32_DIV then .ok (input, .F32Div)
    else if op = F32_MIN then .ok (input, .F32Min)
    else if op = F32_MAX then .ok (input, .F32Max)
    else if op = F32_COPYSIGN then .ok (input, .F32Copysign)
    else if op = F64_ABS then .ok (input, .F64AbS)
    else if op = F64_NEG then .ok (input, .F64Neg)
    else if op = F64_CEIL then .ok (input, .F64Ceil)
    else if op = F64_FLOOR then .ok (input, .F64Floor)
    else if op = F64_TRUNC then .ok (input, .F64Trunc)
    else if op = F64_NEAREST then .ok (input, .F64Nearest)
    else if op = F64_SQRT then .ok (input, .F64Sqrt)
    else if op = F64_ADD then .ok (input, .F64Add)
    else if op = F64_SUB then .ok (input, .F64Sub)
    else if op = F64_MUL then .ok (input, .F64Mul)
    else if op = F64_DIV then .ok (input, .F64Div)
    else if op = F64_MIN then .ok (input, .F64Min)
    else if op = F64_MAX then .ok (input, .F64Max)
    else if op = F64_COPYSIGN then .ok (input, .F64Copysign)
    else if op = I32_WRAP_F64 then .ok (input, .I32wrapF64)
    else if op = I32_TRUNC_S_F32 then .ok (input, .I32TruncSF32)
    else if op = I32_TRUNC_U_F32 then .ok (input, .I32TruncUF32)
    else if op = I32_TRUNC_S_F64 then .ok (input, .I32TruncSF64)
    else if op = I32_TRUNC_U_F64 then .ok (input, .I32TruncUF64)
    else if op = I64_EXTEND_S_I32 then .ok (input, .I64ExtendSI32)
    else if op = I64_EXTEND_U_I32 then .ok (input, .I64ExtendUI32)
    else if op = I64_TRUNC_S_F32 then .ok (input, .I64TruncSF32)
    else if op = I64_TRUNC_U_F32 then .ok (input, .I64TruncUF32)
    else if op = I64_TRUNC_S_F64 then .ok (input, .I64TruncSF64)
    else if op = I64_TRUNC_U_F64 then .ok (input, .I64TruncUF64)
    else if op = F32_CONVERT_S_I32 then .ok (input, .F32ConvertSI32)
    else if op = F32_CONVERT_U_I32 then .ok (input, .F32ConvertUI32)
    else if op = F32_CONVERT_S_I64 then .ok (input, .F32ConvertSI64)
    else if op = F32_CONVERT_U_I64 then .ok (input, .F32ConvertUI64)
    else if op = F32_DEMOTE_F64 then .ok (input, .F32DemoteF64)
    else if op = F64_CONVERT_S_I32 then .ok (input, .F64ConvertSI32)
    else if op = F64_CONVERT_U_I32 then .ok (input, .F64ConvertUI32)
    else if op = F64_CONVERT_S_I64 then .ok (input, .F64ConvertSI64)
    else if op = F64_CONVERT_U_I64 then .ok (input, .F64ConvertUI64)
    else if op = F64_PROMOTE_F32 then .ok (input, .F64PromoteF32)
    else if op = I32_REINTERPRET_F32 then .ok (input, .I32ReinterpretF32)
    else if op = I64_REINTERPRET_F64 then .ok (input, .I64ReinterpretF64)
    else if op = F32_REINTERPRET_I32 then .ok (input, .F32ReinterpretI32)
    else if op = F64_REINTERPRET_I64 then .ok (input, .F64ReinterpretI64)
    else .error "unknown expression"

/-- fn wasm_expression: an instruction stream terminated by the END byte,
which is consumed but not emitted. -/
def wasm_expression : Nat → Bytes → Except String (Bytes × List Instruction)
  | 0, _ => .error "out of fuel"
  | fuel + 1, input =>
    match take1 input with
    | .error e => .error e
    | .ok (ip, op) =>
      if op = END then .ok (ip, [])
      else
        match wasm_instruction fuel op ip with
        | .error e => .error e
        | .ok (ip, instruction) =>
          match wasm_expression fuel ip with
          | .error e => .error e
          | .ok (ip, instructions) => .ok (ip, instruction :: instructions)

/-- fn wasm_if_else, first loop: the primary stream of an if, terminated by
either END (no else branch) or ELSE (an else stream follows). -/
def wasm_if_else :
    Nat → Bytes → Except String (Bytes × List Instruction × Option (List Instruction))
  | 0, _ => .error "out of fuel"
  | fuel + 1, input =>
    match take1 input with
    | .error e => .error e
    | .ok (ip, op) =>
      if op = END then .ok (ip, [], none)
      else if op = ELSE then
        match wasm_else_expression fuel ip with
        | .error e => .error e
        | .ok (ip, else_instructions) => .ok (ip, [], some else_instructions)
      else
        match wasm_instruction fuel op ip with
        | .error e => .error e
        | .ok (ip, instruction) =>
          match wasm_if_else fuel ip with
          | .error e => .error e
          | .ok (ip, if_instructions, else_instructions) =>
            .ok (ip, instruction :: if_instructions, else_instructions)

/-- fn wasm_if_else, second loop: the else stream, terminated by END.  An ELSE
byte here reaches fn wasm_instruction, which rejects it as an unknown
expression. -/
def wasm_else_expression : Nat → Bytes → Except String (Bytes × List Instruction)
  | 0, _ => .error "out of fuel"
  | fuel + 1, input =>
    match take1 input with
    | .error e => .error e
    | .ok (ip, op) =>
      if op = END then .ok (ip, [])
      else
        match wasm_instruction fuel op ip with
        | .error e => .error e
        | .ok (ip, instruction) =>
          match wasm_else_expression fuel ip with
          | .error e => .error e
          | .ok (ip, instructions) => .ok (ip, instruction :: instructions)

end

/-! Section decoders, from fn section in src/src/lib.rs.  In the source the
per-item parsers are closures inside one big match; here each closure is a
named definition and the match is section_body, with the id byte and the
declared section length read first by wasm_section. -/

/-- Type-section item closure: a function-type marker byte, then the
count-prefixed input and output value-type vectors. -/
def parse_type_item (input : Bytes) : Except String (Bytes × WasmType) :=
  match take1 input with
  | .error e => .error e
  | .ok (input, wasm_type) =>
    if wasm_type = FUNC then
      match wasm_u32 input with
      | .error e => .error e
      | .ok (input, num_inputs) =>
        match take num_inputs input with
        | .error e => .error e
        | .ok (input, inputs) =>
          match wasm_u32 input with
          | .error e => .error e
          | .ok (input, num_outputs) =>
            match take num_outputs input with
            | .error e => .error e
            | .ok (input, outputs) =>
              match try_to_value_types inputs with
              | .error e => .error e
              | .ok ins =>
                match try_to_value_types outputs with
                | .error e => .error e
                | .ok outs => .ok (input, WasmType.Function ⟨ins, outs⟩)
    else .error "unknown type"

/-- Export-section item closure: name, kind byte, index. -/
def parse_export_item (input : Bytes) : Except String (Bytes × WasmExportView) :=
  match wasm_string input with
  | .error e => .error e
  | .ok (input, name) =>
    match take1 input with
    | .error e => .error e
    | .ok (input, export_type) =>
      match wasm_u32 input with
      | .error e => .error e
      | .ok (input, export_index) =>
        if export_type = DESC_FUNCTION then
          .ok (input, WasmExportView.Function ⟨name, export_index⟩)
        else if export_type = DESC_MEMORY then
          .ok (input, WasmExportView.Memory ⟨name, export_index⟩)
        else if export_type = DESC_GLOBAL then
          .ok (input, WasmExportView.Global ⟨name, export_index⟩)
        else if export_type = DESC_TABLE then
          .ok (input, WasmExportView.Table ⟨name, export_index⟩)
        else .error "unknown export"

/-- Code-section item closure: a discarded body size, the local-run vector,
then the body expression. -/
def parse_code_item (fuel : Nat) (input : Bytes) : Except String (Bytes × CodeBlock) :=
  match wasm_u32 input with
  | .error e => .error e
  | .ok (input, _) =>
    match wasm_u32 input with
    | .error e => .error e
    | .ok (input, num_local_vecs) =>
      match many_n num_local_vecs (fun input =>
        match wasm_u32 input with
        | .error e => .error e
        | .ok (input, num_locals) =>
          match take1 input with
          | .error e => .error e
          | .ok (input, local_type) =>
            match ValueType.try_from local_type with
            | .error e => .error e
            | .ok vt => .ok (input, (num_locals, vt))) input with
      | .error e => .error e
      | .ok (input, local_vectors) =>
        match wasm_expression fuel input with
        | .error e => .error e
        | .ok (input, code_expression) =>
          .ok (input, ⟨local_vectors, code_expression⟩)

/-- Import-section item closure: module name, name, kind byte, then the
kind-specific payload.  As in the source, the DESC_GLOBAL kind byte reads a
limits payload and builds a Memory import, while the DESC_MEMORY kind byte
reads a global-type payload and builds a Global import. -/
def parse_import_item (input : Bytes) : Except String (Bytes × WasmImportView) :=
  match wasm_string input with
  | .error e => .error e
  | .ok (input, module_name) =>
    match wasm_string input with
    | .error e => .error e
    | .ok (input, name) =>
      match take1 input with
      | .error e => .error e
      | .ok (input, import_type) =>
        if import_type = DESC_FUNCTION then
          match wasm_u32 input with
          | .error e => .error e
          | .ok (input, type_index) =>
            .ok (input, WasmImportView.Function ⟨module_name, name, type_index⟩)
        else if import_type = DESC_GLOBAL then
          match wasm_limit input with
          | .error e => .error e
          | .ok (input, min_pages, max_pages) =>
            .ok (input, WasmImportView.Memory ⟨module_name, name, min_pages, max_pages⟩)
        else if import_type = DESC_TABLE then
          match take1 input with
          | .error e => .error e
          | .ok (input, element_type) =>
            match wasm_limit input with
            | .error e => .error e
            | .ok (input, min, max) =>
              .ok (input, WasmImportView.Table ⟨module_name, name, element_type, min, max⟩)
        else if import_type = DESC_MEMORY then
          match wasm_global_type input with
          | .error e => .error e
          | .ok (input, value_type, is_mutable) =>
            .ok (input, WasmImportView.Global ⟨module_name, name, value_type, is_mutable⟩)
        else .error "unknown export"

/-- Global-section item closure: a global type then an initializer
expression. -/
def parse_global_item (fuel : Nat) (input : Bytes) : Except String (Bytes × Global) :=
  match wasm_global_type input with
  | .error e => .error e
  | .ok (input, value_type, is_mutable) =>
    match wasm_expression fuel input with
    | .error e => .error e
    | .ok (input, expression) => .ok (input, ⟨value_type, is_mutable, expression⟩)

/-- Table-section item closure: an ANYFUNC element-type byte then limits. -/
def parse_table_item (input : Bytes) : Except String (Bytes × Table) :=
  match take1 input with
  | .error e => .error e
  | .ok (input, element_type) =>
    if element_type = ANYFUNC then
      match wasm_limit input with
      | .error e => .error e
      | .ok (input, min, max) => .ok (input, ⟨element_type, min, max⟩)
    else .error "unknown table type"

/-- Data-section item closure: memory index, offset expression, then a
length-prefixed raw payload. -/
def parse_data_item (fuel : Nat) (input : Bytes) : Except String (Bytes × DataBlockView) :=
  match wasm_u32 input with
  | .error e => .error e
  | .ok (input, mem_index) =>
    match wasm_expression fuel input with
    | .error e => .error e
    | .ok (input, offset_expression) =>
      match wasm_u32 input with
      | .error e => .error e
      | .ok (input, data_len) =>
        match take data_len input with
        | .error e => .error e
        | .ok (input, data) => .ok (input, ⟨mem_index, offset_expression, data⟩)

/-- Memory-section item closure: limits. -/
def parse_memory_item (input : Bytes) : Except String (Bytes × WasmMemory) :=
  match wasm_limit input with
  | .error e => .error e
  | .ok (input, min, max) => .ok (input, ⟨min, max⟩)

/-- Element-section item closure: table index, offset expression, then a
count-prefixed vector of function indices. -/
def parse_element_item (fuel : Nat) (input : Bytes) : Except String (Bytes × WasmElement) :=
  match wasm_u32 input with
  | .error e => .error e
  | .ok (input, table) =>
    match wasm_expression fuel input with
    | .error e => .error e
    | .ok (input, expression) =>
      match wasm_u32 input with
      | .error e => .error e
      | .ok (input, num_functions) =>
        match many_n num_functions wasm_u32 input with
        | .error e => .error e
        | .ok (input, functions) => .ok (input, ⟨table, expression, functions⟩)

/-- The usize subtraction of the source, with the wrap-around semantics of a
release build: subtraction modulo 2 ^ 64. -/
def usize_sub (a b : Nat) : Nat := (a + 2 ^ 64 - b) % 2 ^ 64

/-- fn section, after the id byte and declared length are read: dispatch on
the id.  Only the SECTION_CUSTOM branch uses section_length; every other
branch parses its count-prefixed body and ignores the declared length. -/
def section_body (fuel : Nat) (id : Nat) (section_length : Nat) (input : Bytes) :
    Except String (Bytes × SectionView) :=
  if id = SECTION_TYPE then
    match wasm_u32 input with
    | .error e => .error e
    | .ok (input, num_items) =>
      match many_n num_items parse_type_item input with
      | .error e => .error e
      | .ok (input, items) => .ok (input, SectionView.Type ⟨items⟩)
  else if id = SECTION_FUNCTION then
    match wasm_u32 input with
    | .error e => .error e
    | .ok (input, num_items) =>
      match many_n num_items wasm_u32 input with
      | .error e => .error e
      | .ok (input, items) => .ok (input, SectionView.Function ⟨items⟩)
  else if id = SECTION_START then
    match wasm_u32 input with
    | .error e => .error e
    | .ok (input, start_function) => .ok (input, SectionView.Start ⟨start_function⟩)
  else if id = SECTION_EXPORT then
    match wasm_u32 input with
    | .error e => .error e
    | .ok (input, num_items) =>
      match many_n num_items parse_export_item input with
      | .error e => .error e
      | .ok (input, items) => .ok (input, SectionView.Export ⟨items⟩)
  else if id = SECTION_CODE then
    match wasm_u32 input with
    | .error e => .error e
    | .ok (input, num_items) =>
      match many_n num_items (parse_code_item fuel) input with
      | .error e => .error e
      | .ok (input, items) => .ok (input, SectionView.Code ⟨items⟩)
  else if id = SECTION_IMPORT then
    match wasm_u32 input with
    | .error e => .error e
    | .ok (input, num_items) =>
      match many_n num_items parse_import_item input with
      | .error e => .error e
      | .ok (input, items) => .ok (input, SectionView.Import ⟨items⟩)
  else if id = SECTION_GLOBAL then
    match wasm_u32 input with
    | .error e => .error e
    | .ok (input, num_items) =>
      match many_n num_items (parse_global_item fuel) input with
      | .error e => .error e
      | .ok (input, items) => .ok (input, SectionView.Global ⟨items⟩)
  else if id = SECTION_CUSTOM then
    match try_extract_u32 input with
    | .error e => .error e
    | .ok (num_chars, byte_count) =>
      match take byte_count input with
      | .error e => .error e
      | .ok (input, _) =>
        match take num_chars input with
        | .error e => .error e
        | .ok (input, chars) =>
          if utf8_valid chars then
            match take (usize_sub section_length (byte_count + num_chars)) input with
            | .error e => .error e
            | .ok (input, bytes) =>
              .ok (input, SectionView.Custom ⟨chars, bytes⟩)
          else .error "could not parse utf8 string"
  else if id = SECTION_TABLE then
    match wasm_u32 input with
    | .error e => .error e
    | .ok (input, num_items) =>
      match many_n num_items parse_table_item input with
      | .error e => .error e
      | .ok (input, items) => .ok (input, SectionView.Table ⟨items⟩)
  else if id = SECTION_DATA then
    match wasm_u32 input with
    | .error e => .error e
    | .ok (input, num_items) =>
      match many_n num_items (parse_data_item fuel) input with
      | .error e => .error e
      | .ok (input, items) => .ok (input, SectionView.Data ⟨items⟩)
  else if id = SECTION_MEMORY then
    match wasm_u32 input with
    | .error e => .error e
    | .ok (input, num_items) =>
      match many_n num_items parse_memory_item input with
      | .error e => .error e
      | .ok (input, items) => .ok (input, SectionView.Memory ⟨items⟩)
  else if id = SECTION_ELEMENT then
    match wasm_u32 input with
    | .error e => .error e
    | .ok (input, num_items) =>
      match many_n num_items (parse_element_item fuel) input with
      | .error e => .error e
      | .ok (input, items) => .ok (input, SectionView.Element ⟨items⟩)
  else .error "unknow section"

/-- fn section: one id byte, the declared LEB128 length, then the body. -/
def wasm_section (fuel : Nat) (input : Bytes) : Except String (Bytes × SectionView) :=
  match take1 input with
  | .error e => .error e
  | .ok (input, id) =>
    match wasm_u32 input with
    | .error e => .error e
    | .ok (input, section_length) => section_body fuel id section_length input

/-- The section loop of fn wasm_module: parse sections until a section-parse
attempt fails; succeed if the cursor is then empty, otherwise propagate the
error. -/
def wasm_sections : Nat → Bytes → Except String (List SectionView)
  | 0, _ => .error "out of fuel"
  | fuel + 1, input =>
    match wasm_section fuel input with
    | .ok (rest, item) =>
      match wasm_sections fuel rest with
      | .ok items => .ok (item :: items)
      | .error e => .error e
    | .error e => if input.isEmpty then .ok [] else .error e

/-- fn wasm_module: magic, version, then the section loop. -/
def wasm_module (fuel : Nat) (input : Bytes) : Except String ProgramView :=
  match tag MAGIC_NUMBER input with
  | .error e => .error e
  | .ok (input, _) =>
    match tag VERSION_1 input with
    | .error e => .error e
    | .ok (input, _) =>
      match wasm_sections fuel input with
      | .ok sections => .ok ⟨sections⟩
      | .error e => .error e

/-- pub fn parse.  The fuel is chosen so that it can never run out: the
source loops each consume at least one input byte per two fuel steps. -/
def parse (input : Bytes) : Except String ProgramView :=
  wasm_module (2 * input.length + 2) input

/-- The export-section test of the find closures in the access surface. -/
def is_export_section : SectionView → Bool
  | SectionView.Export _ => true
  | _ => false

/-- The code-section test of the find closures in the access surface. -/
def is_code_section : SectionView → Bool
  | SectionView.Code _ => true
  | _ => false

/-- The export-matching closure of find_exported_function: a Function export
whose name equals the argument. -/
def is_named_function_export (name : Bytes) : WasmExportView → Bool
  | WasmExportView.Function f => f.name == name
  | _ => false

/-- impl ProgramView find_exported_function: the first Function export with
the given name in the first Export section; requires some Code section to be
present. -/
def ProgramView.find_exported_function (p : ProgramView) (name : Bytes) :
    Except String ExportView :=
  match p.sections.find? is_export_section with
  | some (SectionView.Export export_section) =>
    match p.sections.find? is_code_section with
    | some (SectionView.Code _) =>
      match export_section.exports.find? (is_named_function_export name) with
      | some (WasmExportView.Function f) => .ok f
      | _ => .error "could not find export"
    | _ => .error "could not find code section"
  | _ => .error "could not find export section"

/-- impl ProgramView find_code_block: the index-th code block of the first
Code section. -/
def ProgramView.find_code_block (p : ProgramView) (index : Nat) :
    Except String CodeBlock :=
  match p.sections.find? is_code_section with
  | some (SectionView.Code code_section) =>
    if h : index ≥ code_section.code_blocks.length then
      .error "invalid code block index"
    else .ok (code_section.code_blocks.get ⟨index, by omega⟩)
  | _ => .error "could find code section"

/-! Helper definitions and lemmas for the theorems below. -/

/-- A result is an error (used to state failure without fixing the message). -/
def isErr : Except String α → Bool
  | .error _ => true
  | .ok _ => false

theorem isErr_error (e : String) : isErr (α := α) (.error e) = true := rfl

theorem isErr_ok (a : α) : isErr (.ok a) = false := rfl

theorem take_of_le {n : Nat} {l : Bytes} (h : n ≤ l.length) :
    take n l = .ok (l.drop n, l.take n) := by
  unfold take
  rw [if_neg (by omega)]

theorem take_of_gt {n : Nat} {l : Bytes} (h : n > l.length) :
    take n l = .error "trying to take too many bytes" := by
  unfold take
  rw [if_pos h]

theorem take_exact (l r : Bytes) : take l.length (l ++ r) = .ok (r, l) := by
  rw [take_of_le (by simp), List.drop_left, List.take_left]

theorem try_extract_u32_single {b : Nat} (rest : Bytes) (h : b < 128) :
    try_extract_u32 (b :: rest) = .ok (b, 1) := by
  unfold try_extract_u32 extract_leb_u
  rw [if_pos h]
  simp only [pow_zero, mul_one]
  rw [if_pos (by omega)]

theorem wasm_u32_single {b : Nat} (rest : Bytes) (h : b < 128) :
    wasm_u32 (b :: rest) = .ok (rest, b) := by
  unfold wasm_u32
  simp only [try_extract_u32_single rest h]
  rw [take_of_le (by simp)]
  simp

theorem wasm_section_nil (fuel : Nat) :
    wasm_section fuel [] = .error "trying to take too many bytes" := rfl

/-! Claim C1.  Section 4.3 of the specification enumerates the MVP opcodes and
asserts that each decodes to a distinct instruction variant, with
call_indirect reading a type index u32 plus a discarded reserved u32.  The
source does read both immediates, but then builds Instruction::Call (the
variant of the plain call opcode) instead of the never-constructed
Instruction::CallIndirect, so the two opcodes collapse to one variant. -/

/-- Claim C1 (code bug): decoding opcode CALL_INDIRECT consumes the type
index and the reserved u32 but produces the same instruction variant,
Instruction.Call, that the plain CALL opcode produces, instead of a distinct
variant; a byte outside the enumerated set does fail. -/
theorem c1_call_indirect_collapses_to_call :
    wasm_instruction 1 CALL [5] = .ok ([], Instruction.Call 5) ∧
    wasm_instruction 1 CALL_INDIRECT [5, 0] = .ok ([], Instruction.Call 5) ∧
    wasm_instruction 1 0xFC [] = .error "unknown expression" :=
  ⟨rfl, rfl, rfl⟩

/-! Claim C2.  The specification says the driver reports failures as a pair
of the partially decoded sections and the error message.  The source result
type Result of ProgramView and a static str has no such channel: on a section
failure with bytes remaining, wasm_module returns only the error string and
the sections decoded so far are discarded. -/

/-- Claim C2 counterexample: on a module whose Start section decodes
successfully and is followed by an unknown section id with bytes remaining,
parse returns only the error string; no partially decoded program accompanies
the failure (the result type has no such component). -/
theorem c2_failure_carries_only_error :
    parse [0x00, 0x61, 0x73, 0x6D, 0x01, 0x00, 0x00, 0x00,
           0x08, 0x01, 0x00, 0x0C, 0x00] = .error "unknow section" := rfl

/-- Claim C2 as amended: when a section fails to parse with bytes remaining,
the driver loop returns exactly the error message, and sections decoded
before the failure are dropped from the result rather than carried next to
the error. -/
theorem c2_amended_sections_discarded_on_failure :
    (∀ fuel (input : Bytes) e, input ≠ [] → wasm_section fuel input = .error e →
      wasm_sections (fuel + 1) input = .error e) ∧
    (∀ fuel (input rest : Bytes) s e, wasm_section fuel input = .ok (rest, s) →
      wasm_sections fuel rest = .error e →
      wasm_sections (fuel + 1) input = .error e) := by
  constructor
  · intro fuel input e hne hsec
    unfold wasm_sections
    rw [hsec]
    simp [List.isEmpty_iff, hne]
  · intro fuel input rest s e hsec hrest
    unfold wasm_sections
    simp only [hsec, hrest]

/-- Claim C2 witness: the amended theorem applied at concrete inputs; the
decoded Start section is absent from the failure result. -/
theorem c2_amended_witness :
    wasm_sections 1 [0x0D, 0x00] = .error "unknow section" ∧
    wasm_sections 2 [0x08, 0x01, 0x00, 0x0D, 0x00] = .error "unknow section" :=
  ⟨c2_amended_sections_discarded_on_failure.1 0 [0x0D, 0x00] _ (by simp) rfl,
   c2_amended_sections_discarded_on_failure.2 1 [0x08, 0x01, 0x00, 0x0D, 0x00]
     [0x0D, 0x00] (SectionView.Start ⟨0⟩) _ rfl
     (c2_amended_sections_discarded_on_failure.1 0 [0x0D, 0x00] _ (by simp) rfl)⟩

/-! Claim C3.  The specification (and the WebAssembly spec) give the Import
payloads as memory = limits and global = value type plus mutability.  The
source swaps them: the DESC_GLOBAL kind byte is decoded as a limits payload
yielding a Memory import, and the DESC_MEMORY kind byte as a global-type
payload yielding a Global import. -/

/-- Claim C3 (code bug): an import entry whose kind byte is memory and whose
payload is a valid limits encoding is rejected; a kind byte of global
followed by a limits payload yields a Memory import; and a kind byte of
memory followed by a global-type payload yields a Global import.  Each
contradicts the claimed (and WebAssembly-specified) payload assignment. -/
theorem c3_import_payloads_swapped :
    parse_import_item [0, 0, DESC_MEMORY, 0x00, 0x01] =
      .error "could not convert data type" ∧
    parse_import_item [0, 0, DESC_GLOBAL, 0x00, 0x07] =
      .ok ([], WasmImportView.Memory ⟨[], [], 7, none⟩) ∧
    parse_import_item [0, 0, DESC_MEMORY, 0x7F, 0x01] =
      .ok ([], WasmImportView.Global ⟨[], [], ValueType.I32, true⟩) :=
  ⟨rfl, rfl, rfl⟩

/-! Claim C5.  The driver matches the header and then loops over sections;
success is exactly the case where a section-parse attempt fails with the
cursor empty, so the whole buffer decomposes into complete sections. -/

/-- A buffer splits into complete sections: either it is empty (where the
next section-parse attempt necessarily fails, ending the loop successfully),
or one section parses and the remainder splits in turn.  The fuel index
mirrors the fuel threading of the loop. -/
inductive SplitsIntoSections : Nat → Bytes → List SectionView → Prop
  | nil (fuel : Nat) : SplitsIntoSections (fuel + 1) [] []
  | cons (fuel : Nat) (input rest : Bytes) (s : SectionView) (l : List SectionView) :
      wasm_section fuel input = .ok (rest, s) →
      SplitsIntoSections fuel rest l →
      SplitsIntoSections (fuel + 1) input (s :: l)

theorem wasm_sections_ok_iff (fuel : Nat) :
    ∀ (input : Bytes) (l : List SectionView),
      wasm_sections fuel input = .ok l ↔ SplitsIntoSections fuel input l := by
  induction fuel with
  | zero =>
    intro input l
    constructor
    · intro h
      exact absurd h (by simp [wasm_sections])
    · intro h
      cases h
  | succ f ih =>
    intro input l
    constructor
    · intro h
      unfold wasm_sections at h
      cases hs : wasm_section f input with
      | error e =>
        rw [hs] at h
        by_cases hin : input = []
        · subst hin
          simp at h
          subst h
          exact SplitsIntoSections.nil f
        · simp [List.isEmpty_iff, hin] at h
      | ok p =>
        obtain ⟨rest, s⟩ := p
        simp only [hs] at h
        cases hr : wasm_sections f rest with
        | error e => simp [hr] at h
        | ok items =>
          simp only [hr] at h
          injection h with h
          subst h
          exact SplitsIntoSections.cons f input rest s items hs ((ih rest items).mp hr)
    · intro h
      cases h with
      | nil f2 =>
        unfold wasm_sections
        rw [wasm_section_nil]
        simp
      | cons f2 input2 rest s l2 hs hsplit =>
        unfold wasm_sections
        simp only [hs, (ih rest l2).mpr hsplit]

/-- Claim C5: the section loop succeeds exactly when the buffer splits into
complete sections (the final section-parse attempt failing on an empty
cursor); a section failure with bytes remaining fails the loop with that
error; and parsing exactly the eight header bytes yields a program with an
empty section list. -/
theorem c5_module_driver_loop :
    (∀ (fuel : Nat) (input : Bytes) (l : List SectionView),
      wasm_sections fuel input = .ok l ↔ SplitsIntoSections fuel input l) ∧
    (∀ (fuel : Nat) (input : Bytes) (e : String),
      wasm_section fuel input = .error e → input ≠ [] →
      wasm_sections (fuel + 1) input = .error e) ∧
    parse [0x00, 0x61, 0x73, 0x6D, 0x01, 0x00, 0x00, 0x00] = .ok ⟨[]⟩ := by
  refine ⟨wasm_sections_ok_iff, ?_, rfl⟩
  intro fuel input e hsec hne
  unfold wasm_sections
  rw [hsec]
  simp [List.isEmpty_iff, hne]

/-- Claim C5 witness: the loop characterization applied at concrete inputs,
one for the successful empty-cursor case and one for a failing section with
bytes remaining. -/
theorem c5_witness :
    wasm_sections 1 [] = .ok [] ∧
    wasm_sections 1 [0x0C, 0x00] = .error "unknow section" :=
  ⟨(c5_module_driver_loop.1 1 [] []).mpr (SplitsIntoSections.nil 0),
   c5_module_driver_loop.2.1 0 [0x0C, 0x00] _ rfl (by simp)⟩

/-! Claim C8.  The if construct: the primary stream ends at END or ELSE; an
ELSE terminator attaches a second stream parsed up to its own END; a second
ELSE at the same nesting level inside the else branch fails (it reaches the
instruction dispatch, which rejects it); exhausting the input before a
terminator fails. -/

theorem wasm_instruction_else_isErr (fuel : Nat) (input : Bytes) :
    isErr (wasm_instruction fuel ELSE input) = true := by
  cases fuel with
  | zero => rfl
  | succ f => rfl

theorem wasm_else_expression_else_isErr (fuel : Nat) (rest : Bytes) :
    isErr (wasm_else_expression fuel (ELSE :: rest)) = true := by
  cases fuel with
  | zero => rfl
  | succ f =>
    have hi := wasm_instruction_else_isErr f rest
    unfold wasm_else_expression
    simp only [take1]
    cases h : wasm_instruction f ELSE rest with
    | error e => simp [h, isErr, ELSE, END]
    | ok p =>
      rw [h] at hi
      simp [isErr] at hi

/-- Claim C8: the primary stream of an if is terminated by END (yielding no
else branch) or by ELSE (after which a second stream is parsed up to its own
END and attached); an ELSE byte at the same nesting level within the else
branch makes the decode fail for every fuel; and a stream exhausted before
its terminator fails, for both loops.  A concrete nonempty if with else is
evaluated as well. -/
theorem c8_if_else_termination :
    (∀ (fuel : Nat) (rest : Bytes),
      wasm_if_else (fuel + 1) (END :: rest) = .ok (rest, [], none)) ∧
    (∀ (fuel : Nat) (rest r : Bytes) (els : List Instruction),
      wasm_else_expression fuel rest = .ok (r, els) →
      wasm_if_else (fuel + 1) (ELSE :: rest) = .ok (r, [], some els)) ∧
    (∀ (fuel : Nat) (rest : Bytes),
      wasm_else_expression (fuel + 1) (END :: rest) = .ok (rest, [])) ∧
    (∀ (fuel : Nat) (rest : Bytes),
      isErr (wasm_if_else fuel (ELSE :: ELSE :: rest)) = true) ∧
    (∀ fuel : Nat, isErr (wasm_if_else fuel []) = true) ∧
    (∀ fuel : Nat, isErr (wasm_else_expression fuel []) = true) ∧
    wasm_if_else 9 [0x41, 0x01, 0x05, 0x41, 0x02, 0x0B] =
      .ok ([], [Instruction.I32Const 1], some [Instruction.I32Const 2]) := by
  refine ⟨fun fuel rest => rfl, ?_, fun fuel rest => rfl, ?_, ?_, ?_, rfl⟩
  · intro fuel rest r els h
    unfold wasm_if_else
    simp [take1, h, ELSE, END]
  · intro fuel rest
    cases fuel with
    | zero => rfl
    | succ f =>
      have he := wasm_else_expression_else_isErr f rest
      unfold wasm_if_else
      simp only [take1]
      cases h : wasm_else_expression f (ELSE :: rest) with
      | error e => simp [h, isErr, ELSE, END]
      | ok p =>
        rw [h] at he
        simp [isErr] at he
  · intro fuel
    cases fuel with
    | zero => rfl
    | succ f => rfl
  · intro fuel
    cases fuel with
    | zero => rfl
    | succ f => rfl

/-- Claim C8 witness: the else-attachment component applied at a concrete
input, with its hypothesis discharged by evaluation. -/
theorem c8_witness : wasm_if_else 2 [ELSE, END] = .ok ([], [], some []) :=
  c8_if_else_termination.2.1 1 [END] [] [] rfl

/-! Claim C9.  Custom-section byte accounting: the data payload has length
section_length minus the bytes consumed by the name length prefix and the
name itself; if the declared length is smaller than those name bytes, the
usize subtraction wraps (release semantics) to a value within 129 of 2 ^ 64,
and the subsequent take fails on any buffer of realistic size, so decoding
fails rather than succeeding with a huge payload. -/

theorem usize_sub_of_le {a b : Nat} (hb : b ≤ a) (ha : a < 2 ^ 64) :
    usize_sub a b = a - b := by
  unfold usize_sub
  have h2 : a + 2 ^ 64 - b = (a - b) + 2 ^ 64 := by omega
  rw [h2, Nat.add_mod_right, Nat.mod_eq_of_lt (by omega)]

theorem usize_sub_of_lt {a b : Nat} (h : a < b) :
    usize_sub a b = a + 2 ^ 64 - b := by
  unfold usize_sub
  rw [Nat.mod_eq_of_lt (by omega)]

/-- Reduction of the Custom-section decoder on a section whose declared
length and name length are single-byte LEB128 encodings: everything up to the
final take of the data payload evaluates, leaving the wrapped subtraction
visible. -/
theorem wasm_section_custom_reduces (fuel sectLen n : Nat) (name rest : Bytes)
    (hs : sectLen < 128) (hn : n < 128) (hname : name.length = n)
    (hutf : utf8_valid name = true) :
    wasm_section fuel (SECTION_CUSTOM :: sectLen :: n :: (name ++ rest)) =
      match take (usize_sub sectLen (1 + n)) rest with
      | .error e => .error e
      | .ok (input, bytes) => .ok (input, SectionView.Custom ⟨name, bytes⟩) := by
  unfold wasm_section
  simp only [take1]
  simp only [wasm_u32_single _ hs]
  unfold section_body
  simp only [SECTION_CUSTOM, SECTION_TYPE, SECTION_FUNCTION, SECTION_START,
    SECTION_EXPORT, SECTION_CODE, SECTION_IMPORT, SECTION_GLOBAL, SECTION_TABLE,
    SECTION_DATA, SECTION_MEMORY, SECTION_ELEMENT]
  norm_num
  simp only [try_extract_u32_single _ hn]
  rw [take_of_le (by simp)]
  simp only [List.drop_succ_cons, List.drop_zero]
  rw [show (n : Nat) = name.length from hname.symm, take_exact name rest]
  simp only [hutf, if_true, hname]

/-- Claim C9: for a Custom section (single-byte length and name-length
encodings), when the declared section length covers the name bytes the
decoded data field has length section_length minus those name bytes; when the
declared length is smaller, the wrapped subtraction requests close to 2 ^ 64
bytes and decoding fails on any buffer shorter than 2 ^ 63 bytes. -/
theorem c9_custom_section_length_accounting :
    ∀ (fuel sectLen n : Nat) (name rest : Bytes),
      sectLen < 128 → n < 128 → name.length = n → utf8_valid name = true →
      (1 + n ≤ sectLen → sectLen - (1 + n) ≤ rest.length →
        wasm_section fuel (SECTION_CUSTOM :: sectLen :: n :: (name ++ rest)) =
          .ok (rest.drop (sectLen - (1 + n)),
               SectionView.Custom ⟨name, rest.take (sectLen - (1 + n))⟩) ∧
        (rest.take (sectLen - (1 + n))).length = sectLen - (1 + n)) ∧
      (sectLen < 1 + n → rest.length < 2 ^ 63 →
        isErr (wasm_section fuel (SECTION_CUSTOM :: sectLen :: n :: (name ++ rest))) =
          true) := by
  intro fuel sectLen n name rest hs hn hname hutf
  have hred := wasm_section_custom_reduces fuel sectLen n name rest hs hn hname hutf
  constructor
  · intro hle hrest
    rw [usize_sub_of_le hle (by omega)] at hred
    rw [take_of_le hrest] at hred
    refine ⟨hred, ?_⟩
    rw [List.length_take]
    exact min_eq_left hrest
  · intro hlt hrest
    rw [usize_sub_of_lt hlt] at hred
    rw [take_of_gt (by omega)] at hred
    rw [hred]
    rfl

/-- Claim C9 witness: the accounting theorem applied at two concrete custom
sections, one well-formed (data length 3 minus 2 name bytes) and one whose
declared length is smaller than the name bytes. -/
theorem c9_witness :
    wasm_section 0 [0x00, 3, 1, 0x61, 9, 9] =
      .ok ([9], SectionView.Custom ⟨[0x61], [9]⟩) ∧
    isErr (wasm_section 0 [0x00, 1, 1, 0x61, 9, 9]) = true := by
  constructor
  · exact ((c9_custom_section_length_accounting 0 3 1 [0x61] [9, 9] (by decide)
      (by decide) (by decide) (by decide)).1 (by decide) (by decide)).1
  · exact (c9_custom_section_length_accounting 0 1 1 [0x61] [9, 9] (by decide)
      (by decide) (by decide) (by decide)).2 (by decide) (by decide)

/-! Claim C10.  The declared section length is read and then discarded for
every non-Custom section: the decoded value cannot depend on it. -/

theorem section_body_ignores_length (fuel id len1 len2 : Nat) (input : Bytes)
    (hid : id ≠ SECTION_CUSTOM) :
    section_body fuel id len1 input = section_body fuel id len2 input := by
  unfold section_body
  refine if_congr Iff.rfl rfl ?_
  refine if_congr Iff.rfl rfl ?_
  refine if_congr Iff.rfl rfl ?_
  refine if_congr Iff.rfl rfl ?_
  refine if_congr Iff.rfl rfl ?_
  refine if_congr Iff.rfl rfl ?_
  refine if_congr Iff.rfl rfl ?_
  rw [if_neg hid, if_neg hid]

/-- Claim C10: for every non-Custom section id the decoded result does not
depend on the declared length: the body parser never consults it, and two
byte-level inputs identical except for a validly LEB128-encoded length field
decode to the same result. -/
theorem c10_section_length_not_enforced :
    (∀ (fuel id len1 len2 : Nat) (input : Bytes), id ≠ SECTION_CUSTOM →
      section_body fuel id len1 input = section_body fuel id len2 input) ∧
    (∀ (fuel id : Nat) (b1 b2 rest : Bytes) (v1 v2 : Nat), id ≠ SECTION_CUSTOM →
      try_extract_u32 (b1 ++ rest) = .ok (v1, b1.length) →
      try_extract_u32 (b2 ++ rest) = .ok (v2, b2.length) →
      wasm_section fuel (id :: (b1 ++ rest)) = wasm_section fuel (id :: (b2 ++ rest))) := by
  refine ⟨fun fuel id len1 len2 input hid =>
    section_body_ignores_length fuel id len1 len2 input hid, ?_⟩
  intro fuel id b1 b2 rest v1 v2 hid h1 h2
  unfold wasm_section
  simp only [take1]
  unfold wasm_u32
  simp only [h1, h2, take_exact]
  exact section_body_ignores_length fuel id v1 v2 rest hid

/-- Claim C10 witness: two Start sections differing only in the declared
length byte decode identically. -/
theorem c10_witness : wasm_section 0 [0x08, 1, 0] = wasm_section 0 [0x08, 2, 0] :=
  c10_section_length_not_enforced.2 0 0x08 [1] [2] [0] 1 2 (by decide) rfl rfl

/-! Claim C4.  Structural equality between a view and its owned conversion:
same number of sections, same order, same variant tags, byte-identical string
and byte-slice contents, all other fields unchanged. -/

/-- Structural equality of a borrowed export and an owned export. -/
def ExportView.eqv (v : ExportView) (o : Export) : Prop :=
  v.name = o.name ∧ v.index = o.index

/-- Structural equality of tagged exports: same tag, equal payloads. -/
def WasmExportView.eqv : WasmExportView → WasmExport → Prop
  | WasmExportView.Function a, WasmExport.Function b => ExportView.eqv a b
  | WasmExportView.Table a, WasmExport.Table b => ExportView.eqv a b
  | WasmExportView.Memory a, WasmExport.Memory b => ExportView.eqv a b
  | WasmExportView.Global a, WasmExport.Global b => ExportView.eqv a b
  | _, _ => False

def ExportSectionView.eqv (v : ExportSectionView) (o : ExportSection) : Prop :=
  List.Forall₂ WasmExportView.eqv v.exports o.exports

def FunctionImportView.eqv (v : FunctionImportView) (o : FunctionImport) : Prop :=
  v.module_name = o.module_name ∧ v.name = o.name ∧ v.type_index = o.type_index

def GlobalImportView.eqv (v : GlobalImportView) (o : GlobalImport) : Prop :=
  v.module_name = o.module_name ∧ v.name = o.name ∧
    v.value_type = o.value_type ∧ v.is_mutable = o.is_mutable

def MemoryImportView.eqv (v : MemoryImportView) (o : MemoryImport) : Prop :=
  v.module_name = o.module_name ∧ v.name = o.name ∧
    v.min_pages = o.min_pages ∧ v.max_pages = o.max_pages

def TableImportView.eqv (v : TableImportView) (o : TableImport) : Prop :=
  v.module_name = o.module_name ∧ v.name = o.name ∧
    v.element_type = o.element_type ∧ v.min = o.min ∧ v.max = o.max

/-- Structural equality of tagged imports: same tag, equal payloads. -/
def WasmImportView.eqv : WasmImportView → WasmImport → Prop
  | WasmImportView.Function a, WasmImport.Function b => FunctionImportView.eqv a b
  | WasmImportView.Global a, WasmImport.Global b => GlobalImportView.eqv a b
  | WasmImportView.Memory a, WasmImport.Memory b => MemoryImportView.eqv a b
  | WasmImportView.Table a, WasmImport.Table b => TableImportView.eqv a b
  | _, _ => False

def ImportSectionView.eqv (v : ImportSectionView) (o : ImportSection) : Prop :=
  List.Forall₂ WasmImportView.eqv v.imports o.imports

def DataBlockView.eqv (v : DataBlockView) (o : DataBlock) : Prop :=
  v.memory = o.memory ∧ v.offset_expression = o.offset_expression ∧ v.data = o.data

def DataSectionView.eqv (v : DataSectionView) (o : DataSection) : Prop :=
  List.Forall₂ DataBlockView.eqv v.data_blocks o.data_blocks

def CustomSectionView.eqv (v : CustomSectionView) (o : CustomSection) : Prop :=
  v.name = o.name ∧ v.data = o.data

/-- Structural equality of a view section and an owned section: the variant
tags agree and the payloads are equal (plain equality for the shared payload
types, fieldwise byte equality for the borrowing ones). -/
def SectionView.eqv : SectionView → Section → Prop
  | SectionView.Type a, Section.Type b => a = b
  | SectionView.Function a, Section.Function b => a = b
  | SectionView.Code a, Section.Code b => a = b
  | SectionView.Export a, Section.Export b => ExportSectionView.eqv a b
  | SectionView.Import a, Section.Import b => ImportSectionView.eqv a b
  | SectionView.Memory a, Section.Memory b => a = b
  | SectionView.Start a, Section.Start b => a = b
  | SectionView.Global a, Section.Global b => a = b
  | SectionView.Table a, Section.Table b => a = b
  | SectionView.Data a, Section.Data b => DataSectionView.eqv a b
  | SectionView.Custom a, Section.Custom b => CustomSectionView.eqv a b
  | SectionView.Element a, Section.Element b => a = b
  | _, _ => False

/-- Structural equality of a whole view program and an owned program:
sections correspond pairwise in order. -/
def ProgramView.eqv (p : ProgramView) (q : Program) : Prop :=
  List.Forall₂ SectionView.eqv p.sections q.sections

theorem forall₂_map_self {α β : Type} (R : α → β → Prop) (f : α → β)
    (h : ∀ x, R x (f x)) : ∀ l : List α, List.Forall₂ R l (l.map f)
  | [] => List.Forall₂.nil
  | x :: xs => List.Forall₂.cons (h x) (forall₂_map_self R f h xs)

theorem wasm_export_view_to_owned_eqv (x : WasmExportView) :
    WasmExportView.eqv x
      (match x with
        | WasmExportView.Function a => WasmExport.Function ⟨a.name, a.index⟩
        | WasmExportView.Global a => WasmExport.Global ⟨a.name, a.index⟩
        | WasmExportView.Memory a => WasmExport.Memory ⟨a.name, a.index⟩
        | WasmExportView.Table a => WasmExport.Table ⟨a.name, a.index⟩) := by
  cases x <;> exact ⟨rfl, rfl⟩

theorem section_view_to_owned_eqv (s : SectionView) : s.eqv s.to_owned := by
  cases s
  case Export a =>
    exact forall₂_map_self _ _ wasm_export_view_to_owned_eqv a.exports
  case Import a =>
    refine forall₂_map_self _ _ ?_ a.imports
    intro x
    cases x <;> exact ⟨rfl, rfl, by simp⟩
  case Data a =>
    exact forall₂_map_self _ _ (fun x => ⟨rfl, rfl, rfl⟩) a.data_blocks
  case Custom a => exact ⟨rfl, rfl⟩
  all_goals rfl

/-- Claim C4: every successfully parsed view is structurally equal to its
owned conversion: the section list corresponds pairwise with identical
variant tags, byte-identical names and payload bytes, and all other fields
unchanged. -/
theorem c4_to_owned_structural_equality :
    ∀ (input : Bytes) (v : ProgramView), parse input = .ok v →
      ProgramView.eqv v v.to_owned := by
  intro input v _
  exact forall₂_map_self _ _ section_view_to_owned_eqv v.sections

/-- Claim C4 witness: the round trip applied to the parse of a header-only
module. -/
theorem c4_witness : ProgramView.eqv ⟨[]⟩ (ProgramView.to_owned ⟨[]⟩) :=
  c4_to_owned_structural_equality
    [0x00, 0x61, 0x73, 0x6D, 0x01, 0x00, 0x00, 0x00] ⟨[]⟩ rfl

/-! Claims C6 and C7.  The query surface over a parsed program: locating an
exported function by name and fetching a code block by index. -/

theorem is_code_section_true {s : SectionView} (h : is_code_section s = true) :
    ∃ cs, s = SectionView.Code cs := by
  cases s <;> simp [is_code_section] at h ⊢

theorem is_export_section_true {s : SectionView} (h : is_export_section s = true) :
    ∃ es, s = SectionView.Export es := by
  cases s <;> simp [is_export_section] at h ⊢

theorem is_named_function_export_true {name : Bytes} {x : WasmExportView}
    (h : is_named_function_export name x = true) :
    ∃ f, x = WasmExportView.Function f ∧ f.name = name := by
  cases x <;> simp [is_named_function_export] at h ⊢
  exact h

/-- Claim C7: find_code_block index returns the index-th code block of the
first Code section, and succeeds exactly when some Code section exists (the
first being the one consulted) and the index is within its code-block count;
otherwise it fails. -/
theorem c7_find_code_block_spec :
    ∀ (p : ProgramView) (index : Nat) (b : CodeBlock),
      p.find_code_block index = .ok b ↔
        ∃ (l1 : List SectionView) (cs : CodeSection) (l2 : List SectionView),
          p.sections = l1 ++ SectionView.Code cs :: l2 ∧
          (∀ s ∈ l1, is_code_section s = false) ∧
          cs.code_blocks[index]? = some b := by
  intro p index b
  unfold ProgramView.find_code_block
  cases hf : p.sections.find? is_code_section with
  | none =>
    simp only []
    constructor
    · intro h
      exact absurd h (by simp)
    · rintro ⟨l1, cs, l2, hsec, -, -⟩
      exfalso
      have hmem : SectionView.Code cs ∈ p.sections := by
        rw [hsec]; simp
      have := List.find?_eq_none.mp hf (SectionView.Code cs) hmem
      simp [is_code_section] at this
  | some s =>
    have hps := List.find?_some hf
    cases s
    case Code cs =>
      have hsplit := List.find?_eq_some.mp hf
      obtain ⟨-, l1, l2, hsec, hnone⟩ := hsplit
      simp only []
      constructor
      · intro h
        split at h
        · exact absurd h (by simp)
        · rename_i hlen
          injection h with h
          refine ⟨l1, cs, l2, hsec, ?_, ?_⟩
          · intro s hs
            have := hnone s hs
            simpa using this
          · rw [List.getElem?_eq_getElem (by omega)]
            rw [← h]
            rfl
      · rintro ⟨l1b, cs2, l2b, hsec2, hnone2, hidx⟩
        have hf2 : p.sections.find? is_code_section = some (SectionView.Code cs2) := by
          refine List.find?_eq_some.mpr ⟨by simp [is_code_section], l1b, l2b, hsec2, ?_⟩
          intro a ha
          simp [hnone2 a ha]
        rw [hf] at hf2
        injection hf2 with hf2
        cases hf2
        obtain ⟨hlt, hget⟩ := List.getElem?_eq_some.mp hidx
        split
        · rename_i hge
          omega
        · rename_i hge
          rw [← hget]
          rfl
    all_goals simp [is_code_section] at hps

/-- Claim C7 witness: the characterization applied to a one-section program
holding a single empty code block. -/
theorem c7_witness :
    (ProgramView.mk [SectionView.Code ⟨[⟨[], []⟩]⟩]).find_code_block 0 =
      .ok ⟨[], []⟩ :=
  (c7_find_code_block_spec ⟨[SectionView.Code ⟨[⟨[], []⟩]⟩]⟩ 0 ⟨[], []⟩).mpr
    ⟨[], ⟨[⟨[], []⟩]⟩, [], rfl, by simp, rfl⟩

/-- Claim C6: find_exported_function returns the first Function export whose
name matches, taken from the first Export section, provided some Code section
exists; it fails exactly when there is no Export section, or no Code section,
or no matching Function export in that first Export section. -/
theorem c6_find_exported_function_spec :
    ∀ (p : ProgramView) (name : Bytes) (f : ExportView),
      p.find_exported_function name = .ok f ↔
        ∃ (l1 : List SectionView) (es : ExportSectionView) (l2 : List SectionView),
          p.sections = l1 ++ SectionView.Export es :: l2 ∧
          (∀ s ∈ l1, is_export_section s = false) ∧
          (∃ s ∈ p.sections, is_code_section s = true) ∧
          ∃ (m1 m2 : List WasmExportView),
            es.exports = m1 ++ WasmExportView.Function f :: m2 ∧
            f.name = name ∧
            (∀ x ∈ m1, is_named_function_export name x = false) := by
  intro p name f
  constructor
  · intro h
    unfold ProgramView.find_exported_function at h
    cases hf1 : p.sections.find? is_export_section with
    | none => rw [hf1] at h; exact absurd h (by simp)
    | some s1 =>
      rw [hf1] at h
      have hps1 := List.find?_some hf1
      obtain ⟨es, rfl⟩ := is_export_section_true hps1
      obtain ⟨-, l1, l2, hsec, hnone⟩ := List.find?_eq_some.mp hf1
      cases hf2 : p.sections.find? is_code_section with
      | none => rw [hf2] at h; exact absurd h (by simp)
      | some s2 =>
        rw [hf2] at h
        have hps2 := List.find?_some hf2
        obtain ⟨cs, rfl⟩ := is_code_section_true hps2
        dsimp only at h
        cases hf3 : es.exports.find? (is_named_function_export name) with
        | none => rw [hf3] at h; exact absurd h (by simp)
        | some x =>
          rw [hf3] at h
          have hps3 := List.find?_some hf3
          obtain ⟨g, rfl, hg⟩ := is_named_function_export_true hps3
          injection h with h
          subst h
          obtain ⟨-, m1, m2, hexp, hnone3⟩ := List.find?_eq_some.mp hf3
          refine ⟨l1, es, l2, hsec, ?_, ?_, m1, m2, hexp, hg, ?_⟩
          · intro s hs
            simpa using hnone s hs
          · exact ⟨SectionView.Code cs, List.mem_of_find?_eq_some hf2, rfl⟩
          · intro x hx
            simpa using hnone3 x hx
  · rintro ⟨l1, es, l2, hsec, hnone, ⟨sc, hscmem, hsc⟩, m1, m2, hexp, hname, hnone3⟩
    obtain ⟨cs, rfl⟩ := is_code_section_true hsc
    have hf1 : p.sections.find? is_export_section = some (SectionView.Export es) := by
      refine List.find?_eq_some.mpr ⟨by simp [is_export_section], l1, l2, hsec, ?_⟩
      intro a ha
      simp [hnone a ha]
    have hf2 : ∃ s2, p.sections.find? is_code_section = some s2 := by
      have : (p.sections.find? is_code_section).isSome = true :=
        List.find?_isSome.mpr ⟨SectionView.Code cs, hscmem, rfl⟩
      exact Option.isSome_iff_exists.mp this
    obtain ⟨s2, hf2⟩ := hf2
    obtain ⟨cs2, rfl⟩ := is_code_section_true (List.find?_some hf2)
    have hf3 : es.exports.find? (is_named_function_export name) =
        some (WasmExportView.Function f) := by
      refine List.find?_eq_some.mpr
        ⟨by simp [is_named_function_export, hname], m1, m2, hexp, ?_⟩
      intro a ha
      simp [hnone3 a ha]
    unfold ProgramView.find_exported_function
    rw [hf1]
    dsimp only
    rw [hf2]
    dsimp only
    rw [hf3]

/-- Claim C6 witness: the characterization applied to a two-section program
exporting the function named by the single byte 0x61. -/
theorem c6_witness :
    (ProgramView.mk [SectionView.Export ⟨[WasmExportView.Function ⟨[0x61], 0⟩]⟩,
       SectionView.Code ⟨[]⟩]).find_exported_function [0x61] = .ok ⟨[0x61], 0⟩ :=
  (c6_find_exported_function_spec
      ⟨[SectionView.Export ⟨[WasmExportView.Function ⟨[0x61], 0⟩]⟩,
        SectionView.Code ⟨[]⟩]⟩ [0x61] ⟨[0x61], 0⟩).mpr
    ⟨[], ⟨[WasmExportView.Function ⟨[0x61], 0⟩]⟩, [SectionView.Code ⟨[]⟩], rfl,
      by simp, ⟨SectionView.Code ⟨[]⟩, by simp, rfl⟩, [], [], rfl, rfl, by simp⟩

end Watson
